import Mathlib

/-!
Verification of the AI customer-support backend (`aisupport.py`).

The development is a shallow embedding of the backend's pure logic and of its
two stateful endpoint handler families:

* Python strings are modelled as `String` / `List Char`; `str.lower`,
  `str.strip`, `str.startswith`, `str.replace` and the `in` substring test are
  re-implemented over `List Char` with Python's semantics (ASCII case folding;
  `replace` rewrites every non-overlapping occurrence left to right).
* The two process-wide dicts `emails_db` and `analysis_cache` are association
  lists with Python-dict insert/overwrite semantics (`dictInsert`).
* Exogenous effects are oracle parameters: the uuid and timestamp handed to
  `submit_email`, the outcome of each `model.generate_content` call
  (`Option String`: `some text` for a normal reply, `none` when the library
  call raises), and `json.loads` as a function `String → Except String Json`
  returning the parsed value or the decode-error message.
* Python exceptions are values of `PyExc`; each endpoint body is a function
  returning `Except PyExc result × ServerState` (the state is returned on both
  paths because the global dicts survive an exception), and the blanket
  `except Exception as e: raise HTTPException(500, str(e))` wrapper of each
  handler is applied on top.  Note that FastAPI's `HTTPException` derives from
  `Exception`, so the wrapper also catches the handler's own 404s.
* The pydantic response-model constructions `AnalysisResponse(**analysis_result)`
  (lines 359 and 434) and `ActionResponse(**action_result)` (line 504) are
  fallible — a parsed value lacking the required fields raises a
  `ValidationError` — and they run after all state writes of their handler.
  They are modelled as an oracle `validate : Json → Option String` in the full
  endpoints `analyze_email_endpoint` / `execute_action_endpoint`; the
  handler-body functions (`analyze_email`, `execute_action`) stop just before
  this construction, and `analyze_email_endpoint_state` /
  `execute_action_endpoint_state` show both layers have identical state
  effects on every path.
-/

/-! ## Python string primitives -/

/-- Python `str.lower` restricted to ASCII, applied characterwise. -/
def pyLower (s : List Char) : List Char := s.map Char.toLower

/-- Whitespace characters stripped by Python `str.strip()` (ASCII subset). -/
def pyIsSpace (c : Char) : Bool :=
  c == ' ' || c == '\t' || c == '\n' || c == '\r' || c == '\x0b' || c == '\x0c'

/-- Python `str.strip()`: drop leading and trailing whitespace. -/
def pyStrip (s : List Char) : List Char :=
  ((s.dropWhile pyIsSpace).reverse.dropWhile pyIsSpace).reverse

/-- Python `str.startswith(pre)`. -/
def pyStartswith (s pre : List Char) : Bool := pre.isPrefixOf s

/-- Python substring test `pat in s`. -/
def isSubstring (pat : List Char) : List Char → Bool
  | [] => pat.isEmpty
  | c :: cs => pat.isPrefixOf (c :: cs) || isSubstring pat cs

/-- Python `str.replace(pat, rep)` for a non-empty `pat`: replace every
non-overlapping occurrence, scanning left to right.  (For `pat = []` Python
interleaves `rep` everywhere; the backend only ever replaces non-empty
delimiter strings, and this model keeps the string unchanged in that case.) -/
def replaceAll (pat rep : List Char) : List Char → List Char
  | [] => []
  | c :: cs =>
    if h : pat ≠ [] ∧ pat.isPrefixOf (c :: cs) then
      rep ++ replaceAll pat rep ((c :: cs).drop pat.length)
    else
      c :: replaceAll pat rep cs
  termination_by s => s.length
  decreasing_by
  · simp only [List.length_drop, List.length_cons]
    have hpat : 0 < pat.length := List.length_pos.mpr h.1
    omega
  · simp

/-! ## Industry classifier (`detect_industry`, `aisupport.py` lines 184-203) -/

def banking_keywords : List String :=
  ["account", "bank", "credit", "debit", "loan", "mortgage", "transaction", "payment", "balance"]

def insurance_keywords : List String :=
  ["claim", "policy", "premium", "coverage", "accident", "medical", "health", "auto insurance"]

def it_keywords : List String :=
  ["password", "login", "vpn", "system", "software", "network", "email", "access", "computer"]

/-- Python `sum(1 for word in keywords if word in text)`: the number of
keywords of the list that occur in `text` as a substring (each keyword
contributes at most 1, however often it occurs). -/
def keywordScore (keywords : List String) (text : List Char) : Nat :=
  keywords.countP (fun word => isSubstring word.data text)

/-- The keyword classifier `detect_industry(subject, body)`. -/
def detect_industry (subject body : String) : String :=
  let text := pyLower (subject ++ " " ++ body).data
  let banking_score := keywordScore banking_keywords text
  let insurance_score := keywordScore insurance_keywords text
  let it_score := keywordScore it_keywords text
  if banking_score ≥ insurance_score ∧ banking_score ≥ it_score then "banking"
  else if insurance_score ≥ it_score then "insurance"
  else if it_score > 0 then "it_support"
  else "other"

/-! ## External model call (`call_gemini_api`, lines 145-182) -/

/-- The static fallback payload of `call_gemini_api`, exactly the string
`json.dumps` produces for the hard-coded fallback dict (lines 155-182). -/
def FALLBACK_ANALYSIS_JSON : String :=
  "\x7b\"industry\": \"unknown\", \"confidence\": 0.5, \"categorization\": \x7b\"level1\": \"General\", \"level2\": \"Support\", \"level3\": \"Inquiry\"\x7d, \"analysis\": \x7b\"sentiment\": \"neutral\", \"urgency\": \"medium\", \"summary\": \"Customer inquiry received\", \"customer_type\": \"individual\", \"issue_complexity\": \"moderate\"\x7d, \"suggested_actions\": [\x7b\"id\": \"acknowledge\", \"label\": \"Acknowledge Receipt\", \"description\": \"Send acknowledgment to customer\", \"api_endpoint\": \"/api/acknowledge\", \"priority\": \"primary\"\x7d], \"initial_reply_draft\": \"Thank you for contacting us. We have received your inquiry and will respond shortly.\", \"next_steps\": [\"Review inquiry\", \"Contact customer\"], \"estimated_resolution\": \"24 hours\"\x7d"

/-- `call_gemini_api(prompt)`.  The outcome of the underlying
`model.generate_content` call is exogenous and passed as an oracle:
`some text` models a normal return with `response.text = text`, `none` models
the library call raising any exception.  The `try/except` of lines 147-182
turns the latter into the static fallback payload, so the function itself
always returns a string and never raises. -/
def call_gemini_api (outcome : Option String) (_prompt : String) : String :=
  match outcome with
  | some text => text
  | none => FALLBACK_ANALYSIS_JSON

/-! ## Claim theorems: classifier -/

/-- C1: the classifier lower-cases subject and body joined by a space, scores
the three keyword lists and picks the maximum with ties favouring
banking over insurance over it_support — but the residual branch is dead code:
when all three scores are zero the `banking_score >= insurance_score and
banking_score >= it_score` test already succeeds, so the classifier returns
"banking", never the residual "other" tag claimed by the spec.  The first
conjunct shows no input at all can produce "other"; the second evaluates the
code on an input with all scores zero. -/
theorem detect_industry_residual_unreachable :
    (∀ subject body, (detect_industry subject body == "other") = false) ∧
      detect_industry "" "" = "banking" := by
  constructor
  · intro subject body
    rw [beq_eq_false_iff_ne]
    simp only [detect_industry]
    split_ifs with h1 h2 h3
    · decide
    · decide
    · decide
    · exfalso
      omega
  · decide

/-- C3: inputs containing only keywords of one list are classified into that
list's industry (concretely: the spec's "VPN Connection Problem" example
scores 3 for it_support against 0 and 0 and yields the it_support tag), but
for text containing none of the keywords the classifier returns "banking",
not the residual tag claimed by the spec. -/
theorem detect_industry_keyword_examples :
    (∀ subject body,
      (keywordScore insurance_keywords (pyLower (subject ++ " " ++ body).data) = 0 →
        keywordScore it_keywords (pyLower (subject ++ " " ++ body).data) = 0 →
        0 < keywordScore banking_keywords (pyLower (subject ++ " " ++ body).data) →
        detect_industry subject body = "banking") ∧
      (keywordScore banking_keywords (pyLower (subject ++ " " ++ body).data) = 0 →
        keywordScore it_keywords (pyLower (subject ++ " " ++ body).data) = 0 →
        0 < keywordScore insurance_keywords (pyLower (subject ++ " " ++ body).data) →
        detect_industry subject body = "insurance") ∧
      (keywordScore banking_keywords (pyLower (subject ++ " " ++ body).data) = 0 →
        keywordScore insurance_keywords (pyLower (subject ++ " " ++ body).data) = 0 →
        0 < keywordScore it_keywords (pyLower (subject ++ " " ++ body).data) →
        detect_industry subject body = "it_support")) ∧
    detect_industry "VPN Connection Problem" "vpn network password" = "it_support" ∧
    detect_industry "Hello" "just saying hi" = "banking" := by
  refine ⟨?_, by decide, by decide⟩
  intro subject body
  refine ⟨?_, ?_, ?_⟩ <;> intro hA hB hC <;> simp only [detect_industry] <;>
    split_ifs with h1 h2 h3 <;> first | rfl | (exfalso; omega)

/-- Witness for C3's universal parts at inputs that score in exactly one
keyword list. -/
theorem detect_industry_keyword_examples_witness :
    detect_industry "" "balance inquiry please" = "banking" :=
  ((detect_industry_keyword_examples.1 "" "balance inquiry please").1)
    (by decide) (by decide) (by decide)

/-! ## Claim theorems: external call -/

/-- C7: for every prompt, `call_gemini_api` either returns the external
model's text (when the `generate_content` call returns normally) or the fixed
fallback JSON payload (when the call raises); being a total function into
`String`, the invocation never propagates an exception to the caller. -/
theorem call_gemini_api_fallback_total :
    ∀ (outcome : Option String) (prompt : String),
      (∃ text, outcome = some text ∧ call_gemini_api outcome prompt = text) ∨
        (outcome = none ∧ call_gemini_api outcome prompt = FALLBACK_ANALYSIS_JSON) := by
  intro o p
  cases o with
  | none => exact Or.inr ⟨rfl, rfl⟩
  | some t => exact Or.inl ⟨t, rfl, rfl⟩

/-! ## JSON values, Python exceptions, server state -/

/-- Values produced by `json.loads` (floats are not needed by any claim and
are not modelled; numbers are integers). -/
inductive Json where
  | null
  | bool (b : Bool)
  | num (n : Int)
  | str (s : String)
  | arr (elems : List Json)
  | obj (fields : List (String × Json))

mutual

/-- Python `repr` of a parsed-JSON value, used when such a value is
interpolated into an f-string inside a container (string escaping inside
`repr` is elided; no claim depends on it). -/
def Json.pyRepr : Json → String
  | .null => "None"
  | .bool b => if b then "True" else "False"
  | .num n => toString n
  | .str s => "'" ++ s ++ "'"
  | .arr elems => "[" ++ jsonElemsRepr elems ++ "]"
  | .obj fields => "\x7b" ++ jsonFieldsRepr fields ++ "\x7d"

def jsonElemsRepr : List Json → String
  | [] => ""
  | [x] => Json.pyRepr x
  | x :: y :: xs => Json.pyRepr x ++ ", " ++ jsonElemsRepr (y :: xs)

def jsonFieldsRepr : List (String × Json) → String
  | [] => ""
  | [(k, v)] => "'" ++ k ++ "': " ++ Json.pyRepr v
  | (k, v) :: y :: xs => "'" ++ k ++ "': " ++ Json.pyRepr v ++ ", " ++ jsonFieldsRepr (y :: xs)

end

/-- Python `str()` of a parsed-JSON value as an f-string interpolates it. -/
def Json.pyStr : Json → String
  | .str s => s
  | j => Json.pyRepr j

/-- The Python exceptions the handler bodies can raise. -/
inductive PyExc where
  | httpException (status : Nat) (detail : String)
  | jsonDecodeError (msg : String)
  | keyError (key : String)
  | typeError (msg : String)

/-- Python `str(e)`: Starlette's `HTTPException.__str__` renders
`f"{status_code}: {detail}"`; `str` of a `JSONDecodeError` is its message;
`str` of a `KeyError` is the quoted key. -/
def PyExc.str : PyExc → String
  | .httpException status detail => toString status ++ ": " ++ detail
  | .jsonDecodeError msg => msg
  | .keyError key => "'" ++ key ++ "'"
  | .typeError msg => msg

/-- Python `d[k]` / `k in d` on an association list: the value at the first
matching key. -/
def dictGet {α : Type} (d : List (String × α)) (k : String) : Option α :=
  match d with
  | [] => none
  | (a, b) :: es => if k = a then some b else dictGet es k

/-- Python `d[key]` on a parsed-JSON value: field lookup on an object,
`KeyError` when absent, `TypeError` on a non-object (exact `TypeError`
message elided; no claim depends on it). -/
def getItem (j : Json) (key : String) : Except PyExc Json :=
  match j with
  | Json.obj fields =>
    match dictGet fields key with
    | some v => Except.ok v
    | none => Except.error (PyExc.keyError key)
  | _ => Except.error (PyExc.typeError "value is not subscriptable by string")

structure EmailSubmission where
  from_email : String
  subject : String
  body : String

/-- The record `submit_email` builds and stores (also the shape of
`EmailResponse`, whose fields coincide). -/
structure EmailRecord where
  id : String
  from_email : String
  subject : String
  body : String
  timestamp : String
  industry : String
  sentiment : String
  status : String

structure ActionExecution where
  email_id : String
  action_id : String
  action_label : String

/-- The two process-wide dicts (`emails_db` and `analysis_cache`),
as insertion-ordered association lists with unique keys. -/
structure ServerState where
  emails_db : List (String × EmailRecord)
  analysis_cache : List (String × Json)

/-- Python `d[k] = v`: overwrite the value in place when `k` is present
(keeping the entry's position), append a new entry otherwise. -/
def dictInsert {α : Type} (d : List (String × α)) (k : String) (v : α) :
    List (String × α) :=
  match d with
  | [] => [(k, v)]
  | (a, b) :: es => if k = a then (k, v) :: es else (a, b) :: dictInsert es k v

/-! ## Response sanitizer (lines 414-418 and 484-488) -/

/-- The cleanup applied to the raw model output before `json.loads`:
`strip()`, then for each of the two fence tests a global `replace` of the
opening and closing fence patterns. -/
def cleanList (response : List Char) : List Char :=
  let c0 := pyStrip response
  let c1 :=
    if pyStartswith c0 ("```json".data) then
      replaceAll ("\n```".data) [] (replaceAll ("```json\n".data) [] c0)
    else c0
  let c2 :=
    if pyStartswith c1 ("```".data) then
      replaceAll ("\n```".data) [] (replaceAll ("```\n".data) [] c1)
    else c1
  c2

def clean_response (response : String) : String := ⟨cleanList response.data⟩

/-! ## Prompt templates -/

/-- The analysis prompt f-string of lines 368-408, with the email's fields
interpolated (the doubled braces of the f-string render as single braces). -/
def analysisPrompt (email : EmailRecord) : String :=
  "\n        Analyze this customer support email and provide appropriate categorization and actions based on detected industry.\n\n        Email ID: " ++ email.id ++ "\n        Subject: " ++ email.subject ++ "\n        Body: " ++ email.body ++ "\n        From: " ++ email.from_email ++ "\n        Current Status: " ++ email.status ++ "\n\n        Respond with ONLY a valid JSON object:\n        \x7b\n            \"industry\": \"banking/insurance/it_support/healthcare/retail/other\",\n            \"confidence\": 0.95,\n            \"categorization\": \x7b\n                \"level1\": \"main department\",\n                \"level2\": \"category\", \n                \"level3\": \"specific issue\"\n            \x7d,\n            \"analysis\": \x7b\n                \"sentiment\": \"positive/neutral/negative\",\n                \"urgency\": \"low/medium/high\",\n                \"summary\": \"brief summary\",\n                \"customer_type\": \"individual/business/premium\",\n                \"issue_complexity\": \"simple/moderate/complex\"\n            \x7d,\n            \"suggested_actions\": [\n                \x7b\n                    \"id\": \"action_id\",\n                    \"label\": \"Button Label\",\n                    \"description\": \"What this does\",\n                    \"api_endpoint\": \"/api/endpoint\",\n                    \"priority\": \"primary/secondary\"\n                \x7d\n            ],\n            \"initial_reply_draft\": \"Professional reply draft\",\n            \"next_steps\": [\"step1\", \"step2\"],\n            \"estimated_resolution\": \"time estimate\"\n        \x7d\n\n        DO NOT include backticks, code blocks, or any text outside the JSON object.\n        "

/-- The generic prompt of the fallback call on line 429. -/
def fallbackPrompt : String := "Return a simple JSON with basic analysis"

/-- The action-execution prompt f-string of lines 456-478. -/
def executePrompt (action_label : String) (industryJ summaryJ : Json)
    (email : EmailRecord) : String :=
  "\n        A customer support agent clicked the \"" ++ action_label ++ "\" button for this " ++ industryJ.pyStr ++ " customer issue:\n        \n        Customer Issue: \"" ++ summaryJ.pyStr ++ "\"\n        Original Email: \"" ++ email.body ++ "\"\n        Email ID: " ++ email.id ++ "\n        Current Industry: " ++ industryJ.pyStr ++ "\n        \n        Generate realistic mock API response data and an updated reply draft.\n        \n        Respond with ONLY valid JSON:\n        \x7b\n            \"tool_response\": \x7b\n                \"status\": \"success/error\",\n                \"data\": \"relevant data object based on the tool type\",\n                \"message\": \"brief status message\",\n                \"timestamp\": \"current timestamp\"\n            \x7d,\n            \"updated_reply_draft\": \"Updated professional reply incorporating the fetched data\"\n        \x7d\n        \n        DO NOT include backticks or code blocks.\n        "

/-- The hard-coded fallback `action_result` of lines 494-502. -/
def fallbackActionResult (action_label now : String) : Json :=
  Json.obj
    [("tool_response", Json.obj
        [("status", Json.str "success"),
         ("data", Json.str "Action executed successfully"),
         ("message", Json.str ("Executed " ++ action_label)),
         ("timestamp", Json.str now)]),
     ("updated_reply_draft", Json.str "Thank you for your inquiry. We have processed your request and will respond shortly.")]

/-! ## Endpoint handlers

Each handler body (the code inside its `try:`) is a function to
`Except PyExc result × ServerState`; the state is returned on the error path
too because the process-wide dicts survive a raised exception.  The
`except Exception as e: raise HTTPException(status_code=500, detail=str(e))`
wrapper is a second definition on top.  `parse` models `json.loads`
(`Except.error` carries the `JSONDecodeError` message), `gem n` the outcome of
the `n`-th `generate_content` call a handler makes, `uuid`/`now` the values of
`uuid.uuid4()` and `datetime.now().isoformat()`. -/

/-- The email record built by `submit_email` (lines 317-332). -/
def mkEmailRecord (uuid now : String) (email : EmailSubmission) : EmailRecord :=
  { id := uuid
    from_email := email.from_email
    subject := email.subject
    body := email.body
    timestamp := now
    industry := detect_industry email.subject email.body
    sentiment := "neutral"
    status := "new" }

/-- `POST /api/submit-email` (lines 312-340).  Its `try` body cannot raise, so
the handler needs no error case: it stores the new record under the generated
uuid and returns it. -/
def submit_email (uuid now : String) (st : ServerState) (email : EmailSubmission) :
    EmailRecord × ServerState :=
  let email_record := mkEmailRecord uuid now email
  (email_record, { st with emails_db := dictInsert st.emails_db uuid email_record })

/-- The `try` body of `POST /api/analyze` up to and including the cache write
(lines 354-432).  The result on success is the `analysis_result` dict
together with the list of prompts sent to the model, in order; the final
fallible `AnalysisResponse(**analysis_result)` construction of lines 359/434
is layered on top in `analyze_email_endpoint`. -/
def analyze_email_try (parse : String → Except String Json) (gem : Nat → Option String)
    (st : ServerState) (email_id : String) :
    Except PyExc (Json × List String) × ServerState :=
  match dictGet st.analysis_cache email_id with
  | some cached => (Except.ok (cached, []), st)
  | none =>
    match dictGet st.emails_db email_id with
    | none => (Except.error (PyExc.httpException 404 "Email not found"), st)
    | some email =>
      let prompt := analysisPrompt email
      let response := call_gemini_api (gem 0) prompt
      let clean := clean_response response
      match parse clean with
      | Except.ok analysis_result =>
        (Except.ok (analysis_result, [prompt]),
         { st with analysis_cache := dictInsert st.analysis_cache email_id analysis_result })
      | Except.error _ =>
        match parse (call_gemini_api (gem 1) fallbackPrompt) with
        | Except.ok analysis_result =>
          (Except.ok (analysis_result, [prompt, fallbackPrompt]),
           { st with analysis_cache := dictInsert st.analysis_cache email_id analysis_result })
        | Except.error msg => (Except.error (PyExc.jsonDecodeError msg), st)

/-- `POST /api/analyze` with its `except Exception` wrapper (lines 436-437):
every exception the body raises — including its own `HTTPException(404)`,
which derives from `Exception` — is re-raised as a 500 whose detail is
`str(e)`.  The response-model construction of line 434 is taken to succeed
here; `analyze_email_endpoint` adds that fallible step, with identical state
effects (`analyze_email_endpoint_state`). -/
def analyze_email (parse : String → Except String Json) (gem : Nat → Option String)
    (st : ServerState) (email_id : String) :
    Except PyExc (Json × List String) × ServerState :=
  match analyze_email_try parse gem st email_id with
  | (Except.ok r, st') => (Except.ok r, st')
  | (Except.error e, st') => (Except.error (PyExc.httpException 500 (PyExc.str e)), st')

/-- The `try` body of `POST /api/execute-action` (lines 442-504).  The
f-string of the prompt evaluates `analysis['industry']` and
`analysis['analysis']['summary']` in order, which can raise. -/
def execute_action_try (parse : String → Except String Json) (gem : Nat → Option String)
    (now : String) (st : ServerState) (request : ActionExecution) :
    Except PyExc (Json × List String) × ServerState :=
  match dictGet st.emails_db request.email_id with
  | none => (Except.error (PyExc.httpException 404 "Email not found"), st)
  | some email =>
    match dictGet st.analysis_cache request.email_id with
    | none => (Except.error (PyExc.httpException 404 "Analysis not found"), st)
    | some analysis =>
      match getItem analysis "industry" with
      | Except.error e => (Except.error e, st)
      | Except.ok industryJ =>
        match (getItem analysis "analysis").bind (fun inner => getItem inner "summary") with
        | Except.error e => (Except.error e, st)
        | Except.ok summaryJ =>
          let prompt := executePrompt request.action_label industryJ summaryJ email
          let response := call_gemini_api (gem 0) prompt
          let clean := clean_response response
          let action_result :=
            match parse clean with
            | Except.ok j => j
            | Except.error _ => fallbackActionResult request.action_label now
          (Except.ok (action_result, [prompt]), st)

/-- `POST /api/execute-action` with its `except Exception` wrapper
(lines 506-507), which also swallows the body's own 404s into 500s. -/
def execute_action (parse : String → Except String Json) (gem : Nat → Option String)
    (now : String) (st : ServerState) (request : ActionExecution) :
    Except PyExc (Json × List String) × ServerState :=
  match execute_action_try parse gem now st request with
  | (Except.ok r, st') => (Except.ok r, st')
  | (Except.error e, st') => (Except.error (PyExc.httpException 500 (PyExc.str e)), st')

/-- `POST /api/analyze` in full: the handler body, the fallible pydantic
construction `AnalysisResponse(**analysis_result)` of lines 359 and 434, and
the `except Exception` wrapper.  `validate` models the construction as an
oracle over parsed values: `none` means `AnalysisResponse(**r)` succeeds,
`some msg` means it raises with `str(e) = msg` — as it does, e.g., for a
parsed empty object, which lacks every required field, or for a parsed
non-dict.  The construction runs AFTER the cache write of line 432, so a
validation failure surfaces as a 500 with the new cache entry already in
place. -/
def analyze_email_endpoint (validate : Json → Option String)
    (parse : String → Except String Json) (gem : Nat → Option String)
    (st : ServerState) (email_id : String) :
    Except PyExc (Json × List String) × ServerState :=
  match analyze_email_try parse gem st email_id with
  | (Except.ok (analysis_result, log), st') =>
    match validate analysis_result with
    | none => (Except.ok (analysis_result, log), st')
    | some msg => (Except.error (PyExc.httpException 500 msg), st')
  | (Except.error e, st') => (Except.error (PyExc.httpException 500 (PyExc.str e)), st')

/-- `POST /api/execute-action` in full, with the fallible
`ActionResponse(**action_result)` construction of line 504 modelled by the
same kind of `validate` oracle; here nothing was written beforehand, so a
validation failure is a 500 with the state untouched. -/
def execute_action_endpoint (validate : Json → Option String)
    (parse : String → Except String Json) (gem : Nat → Option String)
    (now : String) (st : ServerState) (request : ActionExecution) :
    Except PyExc (Json × List String) × ServerState :=
  match execute_action_try parse gem now st request with
  | (Except.ok (action_result, log), st') =>
    match validate action_result with
    | none => (Except.ok (action_result, log), st')
    | some msg => (Except.error (PyExc.httpException 500 msg), st')
  | (Except.error e, st') => (Except.error (PyExc.httpException 500 (PyExc.str e)), st')

/-! ## Association-list lemmas for `dictGet` and `dictInsert` -/

theorem dictGet_dictInsert {α : Type} (d : List (String × α)) (k k' : String) (v : α) :
    dictGet (dictInsert d k v) k' = if k' = k then some v else dictGet d k' := by
  induction d with
  | nil => by_cases hk : k' = k <;> simp [dictInsert, dictGet, hk]
  | cons p es ih =>
    obtain ⟨a, b⟩ := p
    by_cases hka : k = a
    · subst hka
      by_cases hk : k' = k <;> simp [dictInsert, dictGet, hk]
    · by_cases hk' : k' = a
      · subst hk'
        have hne : k' ≠ k := fun h => hka h.symm
        simp [dictInsert, dictGet, hka, hne]
      · simp [dictInsert, dictGet, hka, hk', ih]

theorem dictInsert_fresh {α : Type} (d : List (String × α)) (k : String) (v : α)
    (h : dictGet d k = none) : dictInsert d k v = d ++ [(k, v)] := by
  induction d with
  | nil => simp [dictInsert]
  | cons p es ih =>
    obtain ⟨a, b⟩ := p
    by_cases hka : k = a
    · simp [dictGet, hka] at h
    · simp only [dictGet, if_neg hka] at h
      simp [dictInsert, hka, ih h]

/-! ## Claim theorems: error handling of the two lookup-based endpoints -/

/-- C2: requesting analysis for an unknown identifier, or executing an action
before an analysis exists, does NOT surface as a 404: the handler raises
`HTTPException(404, ...)` inside its own `try:` block, and since FastAPI's
`HTTPException` is an `Exception` subclass the blanket
`except Exception as e: raise HTTPException(status_code=500, detail=str(e))`
catches it and re-raises it as a generic 500 whose detail is the string of
the original 404.  Both evaluations go through for an arbitrary parser and
model oracle because the failure happens before any external call. -/
theorem notfound_swallowed_to_500 :
    (∀ parse gem,
      analyze_email parse gem ⟨[], []⟩ "missing" =
        (Except.error (PyExc.httpException 500 "404: Email not found"), ⟨[], []⟩)) ∧
    (∀ parse gem now,
      execute_action parse gem now
          ⟨[("e1", mkEmailRecord "e1" "t0" ⟨"a@b.com", "Hi", "Hello"⟩)], []⟩
          ⟨"e1", "a1", "Acknowledge"⟩ =
        (Except.error (PyExc.httpException 500 "404: Analysis not found"),
         ⟨[("e1", mkEmailRecord "e1" "t0" ⟨"a@b.com", "Hi", "Hello"⟩)], []⟩)) := by
  constructor
  · intro parse gem
    rfl
  · intro parse gem now
    rfl

/-! ## Claim theorems: submit-email -/

/-- C6: `submit_email` returns and stores a record whose subject and body are
the submitted ones verbatim, under the generated identifier; provided the
generated uuid is fresh (the guarantee `uuid.uuid4()` supplies), the store
grows by exactly that one record, and any later submission that also gets a
fresh uuid receives a distinct identifier. -/
theorem submit_email_stores_verbatim
    (uuid now : String) (st : ServerState) (email : EmailSubmission)
    (hfresh : dictGet st.emails_db uuid = none) :
    ((submit_email uuid now st email).1.id = uuid ∧
      (submit_email uuid now st email).1.subject = email.subject ∧
      (submit_email uuid now st email).1.body = email.body) ∧
    (submit_email uuid now st email).2.emails_db =
      st.emails_db ++ [(uuid, mkEmailRecord uuid now email)] ∧
    dictGet (submit_email uuid now st email).2.emails_db uuid =
      some (mkEmailRecord uuid now email) ∧
    ∀ uuid2 now2 email2,
      dictGet (submit_email uuid now st email).2.emails_db uuid2 = none →
      (submit_email uuid2 now2 (submit_email uuid now st email).2 email2).1.id ≠
        (submit_email uuid now st email).1.id := by
  refine ⟨⟨rfl, rfl, rfl⟩, ?_, ?_, ?_⟩
  · show dictInsert st.emails_db uuid (mkEmailRecord uuid now email) = _
    exact dictInsert_fresh _ _ _ hfresh
  · show dictGet (dictInsert st.emails_db uuid (mkEmailRecord uuid now email)) uuid = _
    rw [dictGet_dictInsert]
    simp
  · intro uuid2 now2 email2 h2
    show uuid2 ≠ uuid
    intro hEq
    subst hEq
    have hsome :
        dictGet (dictInsert st.emails_db uuid2 (mkEmailRecord uuid2 now email)) uuid2 = none := h2
    rw [dictGet_dictInsert] at hsome
    simp at hsome

/-- Witness for C6 at a concrete submission into the empty store. -/
theorem submit_email_stores_verbatim_witness :
    (submit_email "u1" "t1" ⟨[], []⟩ ⟨"a@b.com", "Subj", "Body"⟩).2.emails_db =
      [] ++ [("u1", mkEmailRecord "u1" "t1" ⟨"a@b.com", "Subj", "Body"⟩)] :=
  (submit_email_stores_verbatim "u1" "t1" ⟨[], []⟩ ⟨"a@b.com", "Subj", "Body"⟩ rfl).2.1

/-! ## Claim theorems: analysis cache behaviour -/

/-- C5: when an analyze call succeeds, the returned analysis object is in the
cache under the email identifier, and every later analyze call for that
identifier — with any parser and any model oracle, because the cache hit
happens before any external call (no prompt is sent, witnessed by the empty
prompt log) — returns the identical object and leaves the state unchanged. -/
theorem analyze_email_cached_idempotent
    (parse : String → Except String Json) (gem : Nat → Option String)
    (st : ServerState) (email_id : String) (r : Json) (log : List String)
    (st' : ServerState)
    (h : analyze_email parse gem st email_id = (Except.ok (r, log), st')) :
    dictGet st'.analysis_cache email_id = some r ∧
    ∀ parse2 gem2,
      analyze_email parse2 gem2 st' email_id = (Except.ok (r, []), st') := by
  have hkey : dictGet st'.analysis_cache email_id = some r := by
    unfold analyze_email analyze_email_try at h
    cases hc : dictGet st.analysis_cache email_id with
    | some cached =>
      rw [hc] at h
      simp only [Prod.mk.injEq, Except.ok.injEq] at h
      obtain ⟨⟨hr, -⟩, hst⟩ := h
      rw [← hst, hc, hr]
    | none =>
      rw [hc] at h
      cases he : dictGet st.emails_db email_id with
      | none =>
        rw [he] at h
        simp at h
      | some email =>
        rw [he] at h
        cases hp : parse (clean_response (call_gemini_api (gem 0) (analysisPrompt email))) with
        | ok j =>
          simp only [hp, Prod.mk.injEq, Except.ok.injEq] at h
          obtain ⟨⟨hr, -⟩, hst⟩ := h
          rw [← hst]
          simp [dictGet_dictInsert, hr]
        | error msg1 =>
          cases hp2 : parse (call_gemini_api (gem 1) fallbackPrompt) with
          | ok j =>
            simp only [hp, hp2, Prod.mk.injEq, Except.ok.injEq] at h
            obtain ⟨⟨hr, -⟩, hst⟩ := h
            rw [← hst]
            simp [dictGet_dictInsert, hr]
          | error msg2 =>
            simp only [hp, hp2] at h
            simp at h
  refine ⟨hkey, ?_⟩
  intro parse2 gem2
  unfold analyze_email analyze_email_try
  rw [hkey]

/-- Witness for C5: after a successful first analysis of `"e1"`, a second
analyze call with a different (always-failing) parser and a dead model oracle
still returns the identical cached object and leaves the state unchanged. -/
theorem analyze_email_cached_idempotent_witness :
    analyze_email (fun _ => Except.error "nope") (fun _ => none)
        ⟨[("e1", mkEmailRecord "e1" "t0" ⟨"a@b.com", "Hi", "Hello"⟩)], [("e1", Json.null)]⟩
        "e1" =
      (Except.ok (Json.null, []),
       ⟨[("e1", mkEmailRecord "e1" "t0" ⟨"a@b.com", "Hi", "Hello"⟩)], [("e1", Json.null)]⟩) :=
  (analyze_email_cached_idempotent (fun _ => Except.ok Json.null) (fun _ => some "x")
      ⟨[("e1", mkEmailRecord "e1" "t0" ⟨"a@b.com", "Hi", "Hello"⟩)], []⟩ "e1" Json.null
      [analysisPrompt (mkEmailRecord "e1" "t0" ⟨"a@b.com", "Hi", "Hello"⟩)]
      ⟨[("e1", mkEmailRecord "e1" "t0" ⟨"a@b.com", "Hi", "Hello"⟩)], [("e1", Json.null)]⟩
      rfl).2 (fun _ => Except.error "nope") (fun _ => none)

/-- C8: on a cache miss, when `json.loads` fails on the cleaned first model
output, the handler makes exactly one further model call, with the generic
prompt `"Return a simple JSON with basic analysis"` (the prompt log is
exactly the analysis prompt followed by the generic prompt, so exactly two
calls happen); the parse of that second output is unguarded: if it fails too,
the `JSONDecodeError` escapes to the blanket handler and surfaces as a
generic 500 whose detail is the decode-error message, and if it succeeds its
value is cached and returned. -/
theorem analyze_email_retry_path
    (parse : String → Except String Json) (gem : Nat → Option String)
    (st : ServerState) (email_id : String) (email : EmailRecord) (msg1 : String)
    (hc : dictGet st.analysis_cache email_id = none)
    (he : dictGet st.emails_db email_id = some email)
    (hp1 : parse (clean_response (call_gemini_api (gem 0) (analysisPrompt email))) =
      Except.error msg1) :
    (∀ msg2, parse (call_gemini_api (gem 1) fallbackPrompt) = Except.error msg2 →
      analyze_email parse gem st email_id =
        (Except.error (PyExc.httpException 500 msg2), st)) ∧
    (∀ j, parse (call_gemini_api (gem 1) fallbackPrompt) = Except.ok j →
      analyze_email parse gem st email_id =
        (Except.ok (j, [analysisPrompt email, fallbackPrompt]),
         { st with analysis_cache := dictInsert st.analysis_cache email_id j })) := by
  constructor
  · intro msg2 h2
    unfold analyze_email analyze_email_try
    rw [hc, he]
    simp only [hp1, h2, PyExc.str]
  · intro j h2
    unfold analyze_email analyze_email_try
    rw [hc, he]
    simp only [hp1, h2]

/-- Witness for C8: a parser that rejects everything makes the concrete
analyze call fail with a 500 carrying the decode-error message. -/
theorem analyze_email_retry_path_witness :
    analyze_email (fun _ => Except.error "bad json") (fun _ => some "x")
        ⟨[("e1", mkEmailRecord "e1" "t0" ⟨"a@b.com", "Hi", "Hello"⟩)], []⟩ "e1" =
      (Except.error (PyExc.httpException 500 "bad json"),
       ⟨[("e1", mkEmailRecord "e1" "t0" ⟨"a@b.com", "Hi", "Hello"⟩)], []⟩) :=
  (analyze_email_retry_path (fun _ => Except.error "bad json") (fun _ => some "x")
      ⟨[("e1", mkEmailRecord "e1" "t0" ⟨"a@b.com", "Hi", "Hello"⟩)], []⟩ "e1"
      (mkEmailRecord "e1" "t0" ⟨"a@b.com", "Hi", "Hello"⟩) "bad json" rfl rfl rfl).1
    "bad json" rfl

/-! ## Operation sequences over the two mappings -/

/-- One endpoint invocation with its oracle inputs.  The read-only endpoints
(`GET /`, `GET /api/templates`, `GET /api/emails/{industry}`,
`GET /api/health`) never reference `emails_db` or `analysis_cache` and are
state identities, collected in `readOnly`. -/
inductive Op where
  | submitOp (uuid now : String) (email : EmailSubmission)
  | analyzeOp (parse : String → Except String Json) (gem : Nat → Option String)
      (email_id : String)
  | executeOp (parse : String → Except String Json) (gem : Nat → Option String)
      (now : String) (request : ActionExecution)
  | readOnly

/-- The server state after one endpoint invocation. -/
def applyOp (op : Op) (st : ServerState) : ServerState :=
  match op with
  | Op.submitOp uuid now email => (submit_email uuid now st email).2
  | Op.analyzeOp parse gem email_id => (analyze_email parse gem st email_id).2
  | Op.executeOp parse gem now request => (execute_action parse gem now st request).2
  | Op.readOnly => st

/-- The server state after a sequence of endpoint invocations. -/
def runOps (ops : List Op) (st : ServerState) : ServerState :=
  ops.foldl (fun s op => applyOp op s) st

/-- The state at process start: both module-level dicts are empty. -/
def emptyState : ServerState := ⟨[], []⟩

/-- The invariant of C9: every key of the analysis cache is a key of the
email store. -/
def cacheBacked (st : ServerState) : Prop :=
  ∀ email_id, (dictGet st.analysis_cache email_id).isSome →
    (dictGet st.emails_db email_id).isSome

/-- Case analysis of the analyze endpoint's effect on the state: either the
state is unchanged (cache hit, 404, or double parse failure), or the call
succeeded on a cache miss for a stored email and the sole change is the new
cache entry for that email. -/
theorem analyze_email_state_cases (parse : String → Except String Json)
    (gem : Nat → Option String) (st : ServerState) (email_id : String) :
    (analyze_email parse gem st email_id).2 = st ∨
    (∃ j log, dictGet st.analysis_cache email_id = none ∧
      (dictGet st.emails_db email_id).isSome ∧
      (analyze_email parse gem st email_id).1 = Except.ok (j, log) ∧
      (analyze_email parse gem st email_id).2 =
        { st with analysis_cache := dictInsert st.analysis_cache email_id j }) := by
  unfold analyze_email analyze_email_try
  cases hc : dictGet st.analysis_cache email_id with
  | some cached => left; rfl
  | none =>
    cases he : dictGet st.emails_db email_id with
    | none => left; rfl
    | some email =>
      dsimp only
      cases hp : parse (clean_response (call_gemini_api (gem 0) (analysisPrompt email))) with
      | ok j =>
        right
        exact ⟨j, [analysisPrompt email], rfl, by simp, rfl, rfl⟩
      | error msg1 =>
        dsimp only
        cases hp2 : parse (call_gemini_api (gem 1) fallbackPrompt) with
        | ok j =>
          right
          exact ⟨j, [analysisPrompt email, fallbackPrompt], rfl, by simp, rfl, rfl⟩
        | error msg2 => left; rfl

/-- The execute-action endpoint never changes the state, on any path. -/
theorem execute_action_state_id (parse : String → Except String Json)
    (gem : Nat → Option String) (now : String) (st : ServerState)
    (request : ActionExecution) :
    (execute_action parse gem now st request).2 = st := by
  unfold execute_action execute_action_try
  cases he : dictGet st.emails_db request.email_id with
  | none => rfl
  | some email =>
    dsimp only
    cases hc : dictGet st.analysis_cache request.email_id with
    | none => rfl
    | some analysis =>
      dsimp only
      cases h1 : getItem analysis "industry" with
      | error e => rfl
      | ok industryJ =>
        dsimp only
        cases h2 : (getItem analysis "analysis").bind (fun inner => getItem inner "summary") with
        | error e => rfl
        | ok summaryJ => rfl

/-- Every single endpoint invocation preserves the C9 invariant. -/
theorem cacheBacked_applyOp (op : Op) (st : ServerState) (h : cacheBacked st) :
    cacheBacked (applyOp op st) := by
  cases op with
  | submitOp uuid now email =>
    intro id hid
    have hc : (applyOp (Op.submitOp uuid now email) st).analysis_cache =
        st.analysis_cache := rfl
    have he : (applyOp (Op.submitOp uuid now email) st).emails_db =
        dictInsert st.emails_db uuid (mkEmailRecord uuid now email) := rfl
    rw [hc] at hid
    rw [he, dictGet_dictInsert]
    by_cases hq : id = uuid
    · simp [hq]
    · rw [if_neg hq]
      exact h id hid
  | analyzeOp parse gem email_id =>
    show cacheBacked (analyze_email parse gem st email_id).2
    rcases analyze_email_state_cases parse gem st email_id with heq | ⟨j, log, hc, he, -, heq⟩
    · rw [heq]; exact h
    · rw [heq]
      intro id hid
      have hid' : (dictGet (dictInsert st.analysis_cache email_id j) id).isSome := hid
      rw [dictGet_dictInsert] at hid'
      show (dictGet st.emails_db id).isSome
      by_cases hq : id = email_id
      · rw [hq]; exact he
      · rw [if_neg hq] at hid'
        exact h id hid'
  | executeOp parse gem now request =>
    show cacheBacked (execute_action parse gem now st request).2
    rw [execute_action_state_id]
    exact h
  | readOnly => exact h

/-! ## Claim theorems: invariant and frame effects -/

/-- C9: in every state reachable from the empty initial state by any sequence
of endpoint invocations, every key of the analysis cache is also a key of the
email store: the cache is only ever written by analyze after the
`email_id not in emails_db` 404 check has passed, and nothing ever removes an
email record. -/
theorem analysis_cache_backed (ops : List Op) :
    cacheBacked (runOps ops emptyState) := by
  have hgen : ∀ (ops' : List Op) (st : ServerState),
      cacheBacked st → cacheBacked (runOps ops' st) := by
    intro ops'
    induction ops' with
    | nil => intro st h; exact h
    | cons op ops' ih => intro st h; exact ih _ (cacheBacked_applyOp op st h)
  apply hgen
  intro id hid
  simp [dictGet, emptyState] at hid

/-- Witness for C9 after a concrete submission. -/
theorem analysis_cache_backed_witness :
    cacheBacked (runOps [Op.submitOp "u1" "t1" ⟨"a@b.com", "S", "B"⟩] emptyState) :=
  analysis_cache_backed [Op.submitOp "u1" "t1" ⟨"a@b.com", "S", "B"⟩]

/-- Complete case analysis of the analyze handler body: it errors with the
state unchanged, serves a cache hit with the state unchanged, or succeeds on
a cache miss for a stored email with exactly the one new cache entry. -/
theorem analyze_email_try_cases (parse : String → Except String Json)
    (gem : Nat → Option String) (st : ServerState) (email_id : String) :
    (∃ e, analyze_email_try parse gem st email_id = (Except.error e, st)) ∨
    (∃ j, dictGet st.analysis_cache email_id = some j ∧
      analyze_email_try parse gem st email_id = (Except.ok (j, []), st)) ∨
    (∃ j log, dictGet st.analysis_cache email_id = none ∧
      (dictGet st.emails_db email_id).isSome ∧
      analyze_email_try parse gem st email_id =
        (Except.ok (j, log),
         { st with analysis_cache := dictInsert st.analysis_cache email_id j })) := by
  unfold analyze_email_try
  cases hc : dictGet st.analysis_cache email_id with
  | some cached =>
    right; left
    exact ⟨cached, rfl, rfl⟩
  | none =>
    cases he : dictGet st.emails_db email_id with
    | none => left; exact ⟨_, rfl⟩
    | some email =>
      dsimp only
      cases hp : parse (clean_response (call_gemini_api (gem 0) (analysisPrompt email))) with
      | ok j =>
        right; right
        exact ⟨j, [analysisPrompt email], rfl, by simp, rfl⟩
      | error msg1 =>
        dsimp only
        cases hp2 : parse (call_gemini_api (gem 1) fallbackPrompt) with
        | ok j =>
          right; right
          exact ⟨j, [analysisPrompt email, fallbackPrompt], rfl, by simp, rfl⟩
        | error msg2 => left; exact ⟨_, rfl⟩

/-- The full analyze endpoint has the same state effect as the handler body
on every path: the response-model construction neither reads nor writes the
two mappings, it only decides whether the already-updated state is paired
with a 200 or a 500. -/
theorem analyze_email_endpoint_state (validate : Json → Option String)
    (parse : String → Except String Json) (gem : Nat → Option String)
    (st : ServerState) (email_id : String) :
    (analyze_email_endpoint validate parse gem st email_id).2 =
      (analyze_email parse gem st email_id).2 := by
  unfold analyze_email_endpoint analyze_email
  cases htry : analyze_email_try parse gem st email_id with
  | mk res st' =>
    cases res with
    | ok r =>
      obtain ⟨j, log⟩ := r
      dsimp only
      cases validate j <;> rfl
    | error e => rfl

/-- Same for the full execute-action endpoint. -/
theorem execute_action_endpoint_state (validate : Json → Option String)
    (parse : String → Except String Json) (gem : Nat → Option String)
    (now : String) (st : ServerState) (request : ActionExecution) :
    (execute_action_endpoint validate parse gem now st request).2 =
      (execute_action parse gem now st request).2 := by
  unfold execute_action_endpoint execute_action
  cases htry : execute_action_try parse gem now st request with
  | mk res st' =>
    cases res with
    | ok r =>
      obtain ⟨j, log⟩ := r
      dsimp only
      cases validate j <;> rfl
    | error e => rfl

/-- C10 counterexample: a failing analyze call that mutates the cache.  The
model replies with an empty JSON object: `json.loads` succeeds, line 432
writes the parsed object into the cache, and then
`AnalysisResponse(**analysis_result)` on line 434 raises (every required
field is missing), which the blanket
handler turns into a 500 — with the new cache entry left behind.  So it is
not the case that every failing path leaves both mappings unchanged: errors
are not atomic. -/
theorem analyze_validation_failure_mutates_cache :
    (analyze_email_endpoint (fun _ => some "8 validation errors for AnalysisResponse")
        (fun _ => Except.ok (Json.obj [])) (fun _ => some "\x7b\x7d")
        ⟨[("e1", mkEmailRecord "e1" "t0" ⟨"a@b.com", "Hi", "Hello"⟩)], []⟩ "e1").1 =
      Except.error (PyExc.httpException 500 "8 validation errors for AnalysisResponse") ∧
    (analyze_email_endpoint (fun _ => some "8 validation errors for AnalysisResponse")
        (fun _ => Except.ok (Json.obj [])) (fun _ => some "\x7b\x7d")
        ⟨[("e1", mkEmailRecord "e1" "t0" ⟨"a@b.com", "Hi", "Hello"⟩)], []⟩ "e1").2.analysis_cache =
      [("e1", Json.obj [])] :=
  ⟨rfl, rfl⟩

/-- C10 (amended): the only state writes any endpoint performs are:
submit-email adds exactly one entry to the email store (when the generated
uuid is fresh, as `uuid.uuid4()` guarantees) and never touches the analysis
cache; analyze never touches the email store and either changes nothing or
appends exactly one fresh cache entry, leaving existing entries unchanged;
its not-found paths (and, by the error case analysis, every parse-failure
path) leave both mappings entirely unchanged; but a failing analyze is NOT
always atomic: the one other failing path — the response-model construction
raising after a successful parse — fails with the freshly inserted cache
entry already in place, as the final conjunct characterises.  Execute-action
never changes the state on any path, and stored email records are never
mutated or deleted. -/
theorem endpoint_frame_effects_full :
    (∀ uuid now st email,
      (submit_email uuid now st email).2.analysis_cache = st.analysis_cache ∧
      (dictGet st.emails_db uuid = none →
        (submit_email uuid now st email).2.emails_db =
          st.emails_db ++ [(uuid, mkEmailRecord uuid now email)])) ∧
    (∀ validate parse gem st email_id,
      (analyze_email_endpoint validate parse gem st email_id).2.emails_db = st.emails_db ∧
      ((analyze_email_endpoint validate parse gem st email_id).2.analysis_cache =
          st.analysis_cache ∨
        ∃ j, dictGet st.analysis_cache email_id = none ∧
          (analyze_email_endpoint validate parse gem st email_id).2.analysis_cache =
            st.analysis_cache ++ [(email_id, j)]) ∧
      (dictGet st.analysis_cache email_id = none →
        dictGet st.emails_db email_id = none →
        (analyze_email_endpoint validate parse gem st email_id).1 =
            Except.error (PyExc.httpException 500 "404: Email not found") ∧
          (analyze_email_endpoint validate parse gem st email_id).2 = st) ∧
      (∀ e, (analyze_email_endpoint validate parse gem st email_id).1 = Except.error e →
        ((analyze_email_endpoint validate parse gem st email_id).2 = st ∨
          ∃ j msg, validate j = some msg ∧ e = PyExc.httpException 500 msg ∧
            dictGet st.analysis_cache email_id = none ∧
            (analyze_email_endpoint validate parse gem st email_id).2 =
              { st with analysis_cache := dictInsert st.analysis_cache email_id j }))) ∧
    (∀ validate parse gem now st request,
      (execute_action_endpoint validate parse gem now st request).2 = st) := by
  refine ⟨?_, ?_, ?_⟩
  · intro uuid now st email
    exact ⟨rfl, fun hfresh => dictInsert_fresh st.emails_db uuid _ hfresh⟩
  · intro validate parse gem st email_id
    have hstate := analyze_email_endpoint_state validate parse gem st email_id
    refine ⟨?_, ?_, ?_, ?_⟩
    · rw [hstate]
      rcases analyze_email_state_cases parse gem st email_id with heq | ⟨j, log, -, -, -, heq⟩ <;>
        rw [heq]
    · rw [hstate]
      rcases analyze_email_state_cases parse gem st email_id with heq | ⟨j, log, hc, -, -, heq⟩
      · left; rw [heq]
      · right
        exact ⟨j, hc, by rw [heq]; exact dictInsert_fresh st.analysis_cache email_id j hc⟩
    · intro hc he
      unfold analyze_email_endpoint analyze_email_try
      rw [hc, he]
      exact ⟨rfl, rfl⟩
    · intro e herr
      rcases analyze_email_try_cases parse gem st email_id with
        ⟨e', hpair⟩ | ⟨j, hc, hpair⟩ | ⟨j, log, hc, hm, hpair⟩
      · left
        unfold analyze_email_endpoint
        rw [hpair]
      · left
        unfold analyze_email_endpoint
        rw [hpair]
        dsimp only
        cases validate j <;> rfl
      · cases hv : validate j with
        | none =>
          have hok : (analyze_email_endpoint validate parse gem st email_id).1 =
              Except.ok (j, log) := by
            unfold analyze_email_endpoint
            rw [hpair]
            dsimp only
            rw [hv]
          rw [hok] at herr
          exact absurd herr (by simp)
        | some msg =>
          have h500 : analyze_email_endpoint validate parse gem st email_id =
              (Except.error (PyExc.httpException 500 msg),
               { st with analysis_cache := dictInsert st.analysis_cache email_id j }) := by
            unfold analyze_email_endpoint
            rw [hpair]
            dsimp only
            rw [hv]
          rw [h500] at herr
          right
          exact ⟨j, msg, hv, (Except.error.inj herr).symm, hc, by rw [h500]⟩
  · intro validate parse gem now st request
    exact (execute_action_endpoint_state validate parse gem now st request).trans
      (execute_action_state_id parse gem now st request)

/-- Witness for C10 (amended) at a concrete not-found analyze call. -/
theorem endpoint_frame_effects_full_witness :
    (analyze_email_endpoint (fun _ => none) (fun _ => Except.error "x") (fun _ => none)
        emptyState "missing").1 =
        Except.error (PyExc.httpException 500 "404: Email not found") ∧
      (analyze_email_endpoint (fun _ => none) (fun _ => Except.error "x") (fun _ => none)
          emptyState "missing").2 = emptyState :=
  (endpoint_frame_effects_full.2.1 (fun _ => none) (fun _ => Except.error "x") (fun _ => none)
    emptyState "missing").2.2.1 rfl rfl

/-! ## Rewriting lemmas for the response sanitizer -/

theorem replaceAll_nil (pat rep : List Char) : replaceAll pat rep [] = [] := by
  simp [replaceAll]

theorem replaceAll_cons_match (pat rep : List Char) (c : Char) (cs : List Char)
    (h : pat ≠ [] ∧ pat.isPrefixOf (c :: cs)) :
    replaceAll pat rep (c :: cs) = rep ++ replaceAll pat rep ((c :: cs).drop pat.length) := by
  conv_lhs => rw [replaceAll]
  rw [dif_pos h]

theorem replaceAll_cons_skip (pat rep : List Char) (c : Char) (cs : List Char)
    (h : ¬ (pat ≠ [] ∧ pat.isPrefixOf (c :: cs))) :
    replaceAll pat rep (c :: cs) = c :: replaceAll pat rep cs := by
  conv_lhs => rw [replaceAll]
  rw [dif_neg h]

theorem isPrefixOf_append_self (l t : List Char) : l.isPrefixOf (l ++ t) = true := by
  simp [List.isPrefixOf_iff_prefix]

/-- A match right at the head is replaced and scanning continues after it. -/
theorem replaceAll_prefix_match (pat rep rest : List Char) (hpat : pat ≠ []) :
    replaceAll pat rep (pat ++ rest) = rep ++ replaceAll pat rep rest := by
  obtain ⟨c, cs, rfl⟩ : ∃ c cs, pat = c :: cs := by
    cases pat with
    | nil => exact absurd rfl hpat
    | cons c cs => exact ⟨c, cs, rfl⟩
  rw [List.cons_append,
    replaceAll_cons_match _ _ _ _
      ⟨hpat, by rw [← List.cons_append]; exact isPrefixOf_append_self _ _⟩,
    ← List.cons_append, List.drop_left]

/-- If no non-empty suffix of `s` starts with `pat`, nothing is replaced. -/
theorem replaceAll_no_match (pat rep : List Char) (s : List Char)
    (h : ∀ s₂, s₂ ≠ [] → s₂ <:+ s → ¬ pat <+: s₂) :
    replaceAll pat rep s = s := by
  induction s with
  | nil => exact replaceAll_nil pat rep
  | cons c cs ih =>
    rw [replaceAll_cons_skip _ _ _ _ ?hneg]
    case hneg =>
      rintro ⟨hpat, hpre⟩
      exact h (c :: cs) (by simp) (List.suffix_refl _) (List.isPrefixOf_iff_prefix.mp hpre)
    rw [ih (fun s₂ hne hsuf => h s₂ hne (hsuf.trans (List.suffix_cons c cs)))]

/-- Scanning a block `j` in which no match can start (even one that would
reach over into `t`) leaves `j` untouched and continues in `t`. -/
theorem replaceAll_append_left (pat rep j t : List Char)
    (h : ∀ j₂, j₂ ≠ [] → j₂ <:+ j → ¬ pat <+: (j₂ ++ t)) :
    replaceAll pat rep (j ++ t) = j ++ replaceAll pat rep t := by
  induction j with
  | nil => simp
  | cons c cs ih =>
    rw [List.cons_append, replaceAll_cons_skip _ _ _ _ ?hneg]
    case hneg =>
      rintro ⟨hpat, hpre⟩
      refine h (c :: cs) (by simp) (List.suffix_refl _) ?_
      rw [List.cons_append]
      exact List.isPrefixOf_iff_prefix.mp hpre
    rw [ih (fun j₂ hne hsuf => h j₂ hne (hsuf.trans (List.suffix_cons c cs))), List.cons_append]

/-- `strip()` is the identity on a string whose first and last characters are
not whitespace. -/
theorem pyStrip_eq_self (c d : Char) (t : List Char)
    (hc : pyIsSpace c = false) (hd : pyIsSpace d = false) :
    pyStrip (c :: (t ++ [d])) = c :: (t ++ [d]) := by
  unfold pyStrip
  rw [List.dropWhile_cons, hc]
  have h2 : (c :: (t ++ [d])).reverse = d :: (t.reverse ++ [c]) := by simp
  rw [if_neg (by simp), h2, List.dropWhile_cons, hd, if_neg (by simp), ← h2,
    List.reverse_reverse]

/-- A prefix fact localised to the left part of an append. -/
theorem prefix_of_append_left {p a b : List Char} (h : p <+: a ++ b)
    (hl : p.length ≤ a.length) : p <+: a := by
  rw [List.prefix_iff_eq_take] at h ⊢
  rw [List.take_append_eq_append_take, Nat.sub_eq_zero_of_le hl, List.take_zero,
    List.append_nil] at h
  exact h

theorem take_of_prefix_append {p b : List Char} (j₂ r : List Char)
    (hr : p ++ r = j₂ ++ b) (hlt : j₂.length ≤ p.length) :
    p.take j₂.length = j₂ := by
  have h := congrArg (List.take j₂.length) hr
  rw [List.take_append_eq_append_take, Nat.sub_eq_zero_of_le hlt, List.take_zero,
    List.append_nil, List.take_left] at h
  exact h

/-- The opening fence pattern cannot match anywhere inside the wrapped
payload: not inside `j` (no occurrence of the pattern in `j`), and not
overhanging into the closing fence (that would force `j` to end in
the seven-character opening marker). -/
theorem no_fence_json_match (j : List Char)
    (h1 : ¬ ("```json\n".data <:+: j))
    (h4 : ¬ ("```json".data <:+ j)) :
    ∀ j₂, j₂ ≠ [] → j₂ <:+ j → ¬ ("```json\n".data <+: (j₂ ++ "\n```".data)) := by
  intro j₂ hne hsuf hpre
  by_cases hlen : ("```json\n".data).length ≤ j₂.length
  · exact h1 (((prefix_of_append_left hpre hlen).isInfix).trans hsuf.isInfix)
  · have hlenb := hpre.length_le
    rw [List.length_append, show ("```json\n".data).length = 8 from by decide,
      show ("\n```".data).length = 4 from by decide] at hlenb
    rw [show ("```json\n".data).length = 8 from by decide] at hlen
    obtain ⟨r, hr⟩ := hpre
    have htake := take_of_prefix_append j₂ r hr
      (by rw [show ("```json\n".data).length = 8 from by decide]; omega)
    have hcases : j₂.length = 4 ∨ j₂.length = 5 ∨ j₂.length = 6 ∨ j₂.length = 7 := by omega
    rcases hcases with hm | hm | hm | hm
    · have hj₂ : j₂ = ("```json\n".data).take 4 := by rw [← htake, hm]
      rw [hj₂] at hr
      have h8 := congrArg (List.take 8) hr
      rw [List.take_left' (by decide)] at h8
      exact absurd h8 (by decide)
    · have hj₂ : j₂ = ("```json\n".data).take 5 := by rw [← htake, hm]
      rw [hj₂] at hr
      have h8 := congrArg (List.take 8) hr
      rw [List.take_left' (by decide)] at h8
      exact absurd h8 (by decide)
    · have hj₂ : j₂ = ("```json\n".data).take 6 := by rw [← htake, hm]
      rw [hj₂] at hr
      have h8 := congrArg (List.take 8) hr
      rw [List.take_left' (by decide)] at h8
      exact absurd h8 (by decide)
    · have hj₂ : j₂ = ("```json\n".data).take 7 := by rw [← htake, hm]
      rw [hj₂, show ("```json\n".data).take 7 = "```json".data from by decide] at hsuf
      exact h4 hsuf

/-- The closing fence pattern cannot match starting inside the payload: not
inside `j`, and an overhanging match is impossible because no proper
non-empty suffix of the pattern is also one of its prefixes. -/
theorem no_close_fence_match (j : List Char)
    (h2 : ¬ ("\n```".data <:+: j)) :
    ∀ j₂, j₂ ≠ [] → j₂ <:+ j → ¬ ("\n```".data <+: (j₂ ++ "\n```".data)) := by
  intro j₂ hne hsuf hpre
  by_cases hlen : ("\n```".data).length ≤ j₂.length
  · exact h2 (((prefix_of_append_left hpre hlen).isInfix).trans hsuf.isInfix)
  · rw [show ("\n```".data).length = 4 from by decide] at hlen
    have hpos : 0 < j₂.length := List.length_pos.mpr hne
    obtain ⟨r, hr⟩ := hpre
    have htake := take_of_prefix_append j₂ r hr
      (by rw [show ("\n```".data).length = 4 from by decide]; omega)
    have hcases : j₂.length = 1 ∨ j₂.length = 2 ∨ j₂.length = 3 := by omega
    rcases hcases with hm | hm | hm
    · have hj₂ : j₂ = ("\n```".data).take 1 := by rw [← htake, hm]
      rw [hj₂] at hr
      have h4t := congrArg (List.take 4) hr
      rw [List.take_left' (by decide)] at h4t
      exact absurd h4t (by decide)
    · have hj₂ : j₂ = ("\n```".data).take 2 := by rw [← htake, hm]
      rw [hj₂] at hr
      have h4t := congrArg (List.take 4) hr
      rw [List.take_left' (by decide)] at h4t
      exact absurd h4t (by decide)
    · have hj₂ : j₂ = ("\n```".data).take 3 := by rw [← htake, hm]
      rw [hj₂] at hr
      have h4t := congrArg (List.take 4) hr
      rw [List.take_left' (by decide)] at h4t
      exact absurd h4t (by decide)

/-! ## Claim theorem: response sanitizer -/

/-- C4: for every payload `j` free of fence artifacts — the opening marker
followed by a newline and the newline-closing-fence pattern do not occur
inside `j` (for JSON text they cannot: a raw newline is illegal inside a JSON
string and a backtick is illegal outside one), `j` does not itself start with
a fence, and `j` does not end in the seven-character opening marker — the
sanitizer maps the fenced model output built from a leading triple-backtick
json marker and a trailing triple-backtick back to exactly `j`, so the
wrapped text parses to the same object as the unwrapped payload; on such
inputs the two global `replace` calls remove exactly the leading and trailing
delimiter occurrences and nothing else. -/
theorem clean_response_unwraps (j : String)
    (h1 : ¬ ("```json\n".data <:+: j.data))
    (h2 : ¬ ("\n```".data <:+: j.data))
    (h3 : ¬ ("```".data <+: j.data))
    (h4 : ¬ ("```json".data <:+ j.data)) :
    clean_response ("```json\n" ++ j ++ "\n```") = j := by
  unfold clean_response
  rw [show ("```json\n" ++ j ++ "\n```").data =
      "```json\n".data ++ j.data ++ "\n```".data from by simp]
  suffices hclean :
      cleanList ("```json\n".data ++ j.data ++ "\n```".data) = j.data by
    rw [hclean]
  have hstrip : pyStrip ("```json\n".data ++ j.data ++ "\n```".data) =
      "```json\n".data ++ j.data ++ "\n```".data := by
    have hshape : "```json\n".data ++ j.data ++ "\n```".data =
        Char.ofNat 96 :: (("``json\n".data ++ j.data ++ "\n``".data) ++ [Char.ofNat 96]) := by
      rw [show "```json\n".data = Char.ofNat 96 :: "``json\n".data from by decide,
        show "\n```".data = "\n``".data ++ [Char.ofNat 96] from by decide]
      simp
    rw [hshape, pyStrip_eq_self _ _ _ (by decide) (by decide)]
  have hsw1 : pyStartswith ("```json\n".data ++ j.data ++ "\n```".data)
      ("```json".data) = true := by
    unfold pyStartswith
    rw [List.isPrefixOf_iff_prefix]
    rw [show "```json\n".data = "```json".data ++ "\n".data from by decide]
    rw [List.append_assoc, List.append_assoc]
    exact List.prefix_append _ _
  have hE1 : replaceAll ("```json\n".data) [] ("```json\n".data ++ j.data ++ "\n```".data) =
      j.data ++ "\n```".data := by
    rw [List.append_assoc, replaceAll_prefix_match _ _ _ (by decide), List.nil_append,
      replaceAll_append_left _ _ _ _ (no_fence_json_match j.data h1 h4),
      replaceAll_no_match _ _ _ ?hlen]
    case hlen =>
      intro s₂ hne hsuf hpre
      have hl1 := hpre.length_le
      have hl2 := hsuf.length_le
      rw [show ("```json\n".data).length = 8 from by decide] at hl1
      rw [show ("\n```".data).length = 4 from by decide] at hl2
      omega
  have hE2 : replaceAll ("\n```".data) [] (j.data ++ "\n```".data) = j.data := by
    have hself : replaceAll ("\n```".data) [] ("\n```".data) = [] := by
      have h0 := replaceAll_prefix_match ("\n```".data) ([] : List Char) [] (by decide)
      rw [List.append_nil, replaceAll_nil, List.append_nil] at h0
      exact h0
    rw [replaceAll_append_left _ _ _ _ (no_close_fence_match j.data h2), hself,
      List.append_nil]
  have hsw2 : pyStartswith j.data ("```".data) = false := by
    simp only [pyStartswith, Bool.eq_false_iff, ne_eq, List.isPrefixOf_iff_prefix]
    exact h3
  unfold cleanList
  dsimp only
  rw [hstrip, if_pos hsw1, hE1, hE2, if_neg (by simp [hsw2])]

/-- Witness for C4 on a concrete fenced JSON object. -/
theorem clean_response_unwraps_witness :
    (¬ ("```json\n".data <:+: ("\x7b\"industry\": \"it_support\"\x7d").data)) ∧
      clean_response ("```json\n" ++ "\x7b\"industry\": \"it_support\"\x7d" ++ "\n```") =
        "\x7b\"industry\": \"it_support\"\x7d" :=
  ⟨by decide,
   clean_response_unwraps "\x7b\"industry\": \"it_support\"\x7d"
     (by decide) (by decide) (by decide) (by decide)⟩
